import Mathlib

/-!
A shallow embedding of the `jira_api_fetcher` Python package
(`src/jira_api_fetcher/module.py` and `src/jira_api_fetcher/etc.py`).

The fetcher issues sequential HTTP GET requests.  We model the remote
server as a function `Nat → HttpResponse` giving the response to the
k-th request of a run (requests are issued strictly sequentially), and
each operation returns both its outcome (`Except PyError ...`, mirroring
Python's exception flow) and the ordered list of requests it issued.
The pagination loops of the source are `while` loops with server-driven
termination, so they are embedded with an explicit fuel parameter:
`none` means the fuel ran out (the source loop has not terminated after
that many iterations).

External library functions used by the source are parameters of the
embedding: `urljoin` stands for `urllib.parse.urljoin`, `loads` for
`json.loads` (returning either a decode-error message or the parsed
JSON value), and the server oracle stands for `requests.get`.
-/

/-- JSON values, as produced by `response.json()` / `json.loads`.
Numbers are modelled as integers (the fields the fetcher reads —
`total` — are integral counts). Objects keep their key order. -/
inductive Json where
  | null : Json
  | bool (b : Bool) : Json
  | num (n : Int) : Json
  | str (s : String) : Json
  | arr (items : List Json) : Json
  | obj (fields : List (String × Json)) : Json
deriving Repr

/-- Python `d[k]` on a parsed JSON value: `some` the value when the value
is an object holding the key; `none` when the key is missing or the value
is not an object (Python would raise `KeyError` / `TypeError`). -/
def Json.get? : Json → String → Option Json
  | .obj fields, k => (fields.find? (fun p => p.1 = k)).map (fun p => p.2)
  | _, _ => none

/-- Python truthiness of a JSON value (`not page_data["isLast"]` applies
`not` to an arbitrary value). -/
def Json.truthy : Json → Bool
  | .null => false
  | .bool b => b
  | .num n => n != 0
  | .str s => s != ""
  | .arr items => !items.isEmpty
  | .obj fields => !fields.isEmpty

/-- Python `{**a, **b}`: keys of `a` in order, values overridden by `b`,
new keys of `b` appended in order. -/
def dictInsert (d : List (String × Json)) (k : String) (v : Json) :
    List (String × Json) :=
  if d.any (fun p => p.1 = k) then
    d.map (fun p => if p.1 = k then (k, v) else p)
  else
    d ++ [(k, v)]

def dictMerge (a b : List (String × Json)) : List (String × Json) :=
  b.foldl (fun d p => dictInsert d p.1 p.2) a

/-- Lookup in a parameter dict. -/
def dictGet? (d : List (String × Json)) (k : String) : Option Json :=
  (d.find? (fun p => p.1 = k)).map (fun p => p.2)

/-- The exceptions the fetcher can raise (`module.py` docstrings:
`ValueError`, `json.JSONDecodeError`, `JiraApiError`; `lookupError` /
`typeError` stand for Python's `KeyError` / `TypeError` on a response
body without the expected shape). -/
inductive PyError where
  | valueError (msg : String) : PyError
  | jsonDecodeError (msg : String) : PyError
  | lookupError : PyError
  | typeError : PyError
  | jiraApiError (message : String) (status_code : Int) : PyError
deriving Repr, DecidableEq

/-- `JiraApiError.__str__` from `etc.py`:
`f"{self.args[0]} (Status Code: {self.status_code})"`. -/
def jiraApiErrorDisplay (message : String) (status_code : Int) : String :=
  message ++ " (Status Code: " ++ toString status_code ++ ")"

/-- `JiraConnection` from `etc.py`. -/
structure JiraConnection where
  base_url : String
  username : String
  token : String
deriving Repr, DecidableEq

/-- One HTTP response as the fetcher observes it: `response.status_code`,
`response.text` (raw body, used in error messages) and `response.json()`
(the parsed body). -/
structure HttpResponse where
  status_code : Int
  text : String
  body : Json
deriving Repr

/-- One GET request as issued by `_get_response`: the resolved URL and
the query-parameter dict passed to `requests.get`. -/
structure Request where
  url : String
  params : List (String × Json)
deriving Repr

/-- `JiraApiFetcher._get_url`: raises `ValueError` when the endpoint is
absent or empty, otherwise resolves it against the connection's base URL
with `urllib.parse.urljoin` (passed in as `urljoin`). -/
def _get_url (urljoin : String → String → String) (base_url : String)
    (endpoint : Option String) : Except PyError String :=
  match endpoint with
  | none => .error (.valueError "endpoint must not be empty")
  | some e =>
    if e = "" then .error (.valueError "endpoint must not be empty")
    else .ok (urljoin base_url e)

/-- `JiraApiFetcher.fetch_array`: one GET with empty params; non-200
raises `JiraApiError`, 200 returns the parsed body verbatim.  The second
component is the list of requests issued. -/
def fetch_array (urljoin : String → String → String)
    (conn : JiraConnection) (server : Nat → HttpResponse)
    (endpoint : Option String) :
    Except PyError Json × List Request :=
  match _get_url urljoin conn.base_url endpoint with
  | .error e => (.error e, [])
  | .ok url =>
    let response := server 0
    if response.status_code ≠ 200 then
      (.error (.jiraApiError
          ("Failed to fetch data as array: " ++ response.text)
          response.status_code),
        [⟨url, []⟩])
    else
      (.ok response.body, [⟨url, []⟩])

/-- The params of one `fetch_paginated` iteration: the base
`{startAt, maxResults}` dict, merged (when `params_json` is given) with
`json.loads(params_json)`; a decode failure is re-raised, and a JSON
text that is not an object makes the `{**params, **add_params}` splat
raise `TypeError`. -/
def paginated_params (loads : String → Except String Json)
    (fetch_size start_at : Int) (params_json : Option String) :
    Except PyError (List (String × Json)) :=
  let params : List (String × Json) :=
    [("startAt", .num start_at), ("maxResults", .num fetch_size)]
  match params_json with
  | none => .ok params
  | some s =>
    match loads s with
    | .error msg => .error (.jsonDecodeError msg)
    | .ok (.obj add_params) => .ok (dictMerge params add_params)
    | .ok _ => .error .typeError

/-- The `while has_next` loop of `fetch_paginated`, with fuel.
State: `k` = index of the next request, `start_at`, the accumulated
`data`, and the requests issued so far. -/
def fetch_paginated_go (server : Nat → HttpResponse)
    (loads : String → Except String Json) (url : String)
    (fetch_size : Int) (params_json : Option String) :
    Nat → Nat → Int → List Json → List Request →
    Option (Except PyError (List Json) × List Request)
  | 0, _, _, _, _ => none
  | fuel + 1, k, start_at, data, reqs =>
    match paginated_params loads fetch_size start_at params_json with
    | .error e => some (.error e, reqs)
    | .ok params =>
      let response := server k
      let reqs' := reqs ++ [⟨url, params⟩]
      if response.status_code ≠ 200 then
        some (.error (.jiraApiError
            ("Failed to fetch paginated values: " ++ response.text)
            response.status_code),
          reqs')
      else
        match response.body.get? "isLast" with
        | none => some (.error .lookupError, reqs')
        | some isLast =>
          match response.body.get? "values" with
          | none => some (.error .lookupError, reqs')
          | some (.arr values) =>
            if isLast.truthy then
              some (.ok (data ++ values), reqs')
            else
              fetch_paginated_go server loads url fetch_size params_json
                fuel (k + 1) (start_at + values.length) (data ++ values) reqs'
          | some _ => some (.error .typeError, reqs')

/-- `JiraApiFetcher.fetch_paginated`.  `fuel` bounds the number of loop
iterations; `none` means the source loop would still be running. -/
def fetch_paginated (urljoin : String → String → String)
    (conn : JiraConnection) (server : Nat → HttpResponse)
    (loads : String → Except String Json) (endpoint : Option String)
    (fetch_size : Int) (params_json : Option String) (fuel : Nat) :
    Option (Except PyError (List Json) × List Request) :=
  match _get_url urljoin conn.base_url endpoint with
  | .error e => some (.error e, [])
  | .ok url =>
    if fetch_size < 1 then
      some (.error (.valueError "fetch_size must be >= 1"), [])
    else
      fetch_paginated_go server loads url fetch_size params_json fuel 0 0 [] []

/-- `JiraApiFetcher._get_params`: always `startAt` and `maxResults`;
`jql` only when not `None`; `fields` only when not `None`. -/
def _get_params (fetch_size : Int) (fields : Option (List String))
    (jql : Option String) (start_at : Int) : List (String × Json) :=
  let params : List (String × Json) :=
    [("startAt", .num start_at), ("maxResults", .num fetch_size)]
  let params := match jql with
    | some j => params ++ [("jql", .str j)]
    | none => params
  match fields with
  | some fs => params ++ [("fields", .arr (fs.map Json.str))]
  | none => params

/-- The `while start_at < total_items` loop of `fetch_issues`, with fuel.
State: `k` = index of the next request, `start_at`, `total_items`, the
accumulated issues, and the requests issued so far. -/
def fetch_issues_go (server : Nat → HttpResponse) (url : String)
    (fetch_size : Int) (fields : Option (List String))
    (jql : Option String) :
    Nat → Nat → Int → Int → List Json → List Request →
    Option (Except PyError (List Json) × List Request)
  | 0, _, _, _, _, _ => none
  | fuel + 1, k, start_at, total_items, fetched_issues, reqs =>
    if start_at < total_items then
      let params := _get_params fetch_size fields jql start_at
      let response := server k
      let reqs' := reqs ++ [⟨url, params⟩]
      if response.status_code ≠ 200 then
        some (.error (.jiraApiError
            ("Failed to fetch issues: " ++ response.text)
            response.status_code),
          reqs')
      else
        match response.body.get? "total" with
        | none => some (.error .lookupError, reqs')
        | some (.num total) =>
          match response.body.get? "issues" with
          | none => some (.error .lookupError, reqs')
          | some (.arr issues) =>
            fetch_issues_go server url fetch_size fields jql
              fuel (k + 1) (start_at + issues.length) total
              (fetched_issues ++ issues) reqs'
          | some _ => some (.error .typeError, reqs')
        | some _ => some (.error .typeError, reqs')
    else
      some (.ok fetched_issues, reqs)

/-- Python `fields_str.split(",")`: split on every comma, keeping empty
pieces (`""` splits to `[""]`, `"a,"` to `["a", ""]`). -/
def splitComma (s : String) : List String :=
  (s.toList.foldr (fun c acc =>
      if c = ',' then [] :: acc
      else (c :: acc.headI) :: acc.tail) [[]]).map (fun cs => String.mk cs)

/-- `fields_str` handling in `fetch_issues`: `if fields_str:` is a Python
truthiness test, so both `None` and the empty string leave `fields = None`;
otherwise the string is split on `","`. -/
def issueFields (fields_str : Option String) : Option (List String) :=
  match fields_str with
  | some s => if s ≠ "" then some (splitComma s) else none
  | none => none

/-- `JiraApiFetcher.fetch_issues`.  `fuel` bounds the number of loop
iterations; `none` means the source loop would still be running. -/
def fetch_issues (urljoin : String → String → String)
    (conn : JiraConnection) (server : Nat → HttpResponse)
    (endpoint : Option String) (fetch_size : Int)
    (fields_str : Option String) (jql : Option String) (fuel : Nat) :
    Option (Except PyError (List Json) × List Request) :=
  match _get_url urljoin conn.base_url endpoint with
  | .error e => some (.error e, [])
  | .ok url =>
    if fetch_size < 1 then
      some (.error (.valueError "fetch_size must be >= 1"), [])
    else
      fetch_issues_go server url fetch_size (issueFields fields_str) jql
        fuel 0 0 fetch_size [] []

/-! ## Derived views of a server's responses -/

/-- The `values` list of the i-th response (empty when the field is
missing or not an array). -/
def pageValues (server : Nat → HttpResponse) (i : Nat) : List Json :=
  match (server i).body.get? "values" with
  | some (.arr v) => v
  | _ => []

/-- The i-th response is a well-formed, non-final `fetch_paginated` page:
status 200, a falsy `isLast`, and an array `values`. -/
def contPage (server : Nat → HttpResponse) (i : Nat) : Prop :=
  (server i).status_code = 200 ∧
  (∃ j, (server i).body.get? "isLast" = some j ∧ j.truthy = false) ∧
  (server i).body.get? "values" = some (.arr (pageValues server i))

/-- The concatenated `values` of responses `k, k+1, ..., k+m-1`. -/
def valuesCat (server : Nat → HttpResponse) (k : Nat) : Nat → List Json
  | 0 => []
  | m + 1 => pageValues server k ++ valuesCat server (k + 1) m

/-- The `issues` list of the i-th response (empty when the field is
missing or not an array). -/
def pageIssues (server : Nat → HttpResponse) (i : Nat) : List Json :=
  match (server i).body.get? "issues" with
  | some (.arr v) => v
  | _ => []

/-- The `total` of the i-th response (0 when missing or not a number). -/
def pageTotal (server : Nat → HttpResponse) (i : Nat) : Int :=
  match (server i).body.get? "total" with
  | some (.num t) => t
  | _ => 0

/-- The i-th response is a well-formed `fetch_issues` page: status 200,
a numeric `total` and an array `issues`. -/
def issuesPage (server : Nat → HttpResponse) (i : Nat) : Prop :=
  (server i).status_code = 200 ∧
  (server i).body.get? "total" = some (.num (pageTotal server i)) ∧
  (server i).body.get? "issues" = some (.arr (pageIssues server i))

/-- The concatenated `issues` of responses `k, k+1, ..., k+m-1`. -/
def issuesCat (server : Nat → HttpResponse) (k : Nat) : Nat → List Json
  | 0 => []
  | m + 1 => pageIssues server k ++ issuesCat server (k + 1) m

/-- The source `while` loop of `fetch_paginated` runs forever: no amount
of fuel makes the embedded loop return. -/
def fetch_paginated_diverges (urljoin : String → String → String)
    (conn : JiraConnection) (server : Nat → HttpResponse)
    (loads : String → Except String Json) (endpoint : Option String)
    (fetch_size : Int) (params_json : Option String) : Prop :=
  ∀ fuel, fetch_paginated urljoin conn server loads endpoint fetch_size params_json fuel = none

/-- The source `while` loop of `fetch_issues` runs forever. -/
def fetch_issues_diverges (urljoin : String → String → String)
    (conn : JiraConnection) (server : Nat → HttpResponse)
    (endpoint : Option String) (fetch_size : Int)
    (fields_str : Option String) (jql : Option String) : Prop :=
  ∀ fuel, fetch_issues urljoin conn server endpoint fetch_size fields_str jql fuel = none

/-! ## Concrete fixtures (mirroring the repository's unit tests) -/

/-- A concrete stand-in for `urllib.parse.urljoin` on the fixtures below
(base URL with no trailing slash, absolute endpoint path). -/
def urljoin0 : String → String → String := fun b e => b ++ e

def conn0 : JiraConnection := ⟨"https://jira.example", "user", "tok"⟩

/-- A concrete stand-in for `json.loads`: the text `"bad"` is malformed,
everything else parses to a small object. -/
def loads0 : String → Except String Json := fun s =>
  if s = "bad" then .error "Expecting value" else .ok (.obj [("k", .str "v")])

/-- Page 1 of the spec's `fetchPaginated` example:
`{isLast:false, values:[{id:1}]}`. -/
def pagPage1 : HttpResponse :=
  ⟨200, "", .obj [("isLast", .bool false), ("values", .arr [.obj [("id", .num 1)]])]⟩

/-- Page 2 of the spec's `fetchPaginated` example:
`{isLast:true, values:[{id:2}]}`. -/
def pagPage2 : HttpResponse :=
  ⟨200, "", .obj [("isLast", .bool true), ("values", .arr [.obj [("id", .num 2)]])]⟩

def c1server : Nat → HttpResponse := fun k => if k = 0 then pagPage1 else pagPage2

/-- The spec's `fetchIssues` example pages `{total:2, issues:[{id:1}]}`
and `{total:2, issues:[{id:2}]}`. -/
def issPage1 : HttpResponse :=
  ⟨200, "", .obj [("total", .num 2), ("issues", .arr [.obj [("id", .num 1)]])]⟩

def issPage2 : HttpResponse :=
  ⟨200, "", .obj [("total", .num 2), ("issues", .arr [.obj [("id", .num 2)]])]⟩

def c2server : Nat → HttpResponse := fun k => if k = 0 then issPage1 else issPage2

/-- A server that always answers 500 with body `"error message"`. -/
def err500server : Nat → HttpResponse := fun _ => ⟨500, "error message", .null⟩

/-- A server whose first page is a good non-final page and whose second
response is a 500. -/
def c3server : Nat → HttpResponse := fun k => if k = 0 then pagPage1 else ⟨500, "boom", .null⟩

/-- A server that always answers 200 with `isLast:false` and a
non-empty `values` list. -/
def c4neServer : Nat → HttpResponse := fun _ => pagPage1

/-- A 200 page with `isLast:false` and empty `values`. -/
def emptyNonLastPage : HttpResponse :=
  ⟨200, "", .obj [("isLast", .bool false), ("values", .arr [])]⟩

/-- A server whose first response is final (`isLast:true`) and which,
from the second request on, always answers the non-advancing
`isLast:false` / empty-`values` page. -/
def c4aServer : Nat → HttpResponse := fun k => if k = 0 then pagPage2 else emptyNonLastPage

/-- A server that always answers 200 with `isLast:false` and empty
`values`. -/
def c4emptyServer : Nat → HttpResponse := fun _ => emptyNonLastPage

/-- A server whose k-th response reports `total = k+2` with a single
issue: every response has non-empty `issues`, yet the reported total
stays ahead of the client's offset forever. -/
def c10server : Nat → HttpResponse := fun k =>
  ⟨200, "", .obj [("total", .num ((k : Int) + 2)), ("issues", .arr [.obj [("id", .num 1)]])]⟩

/-- A server that always answers 200 with `total = 5` and empty
`issues`. -/
def c10emptyServer : Nat → HttpResponse := fun _ =>
  ⟨200, "", .obj [("total", .num 5), ("issues", .arr [])]⟩

/-- A server answering 200 with the JSON array `[1, 2]`. -/
def c9server : Nat → HttpResponse := fun _ => ⟨200, "", .arr [.num 1, .num 2]⟩

/-! ## Helper lemmas about the pagination loops -/

/-- One successful iteration of the `fetch_paginated` loop: the page's
`values` are appended in order, `startAt` advances by their length, and
the loop stops exactly when `isLast` is truthy. -/
theorem fetch_paginated_go_step (server : Nat → HttpResponse)
    (loads : String → Except String Json) (url : String) (fetch_size : Int)
    (params_json : Option String) (fuel k : Nat) (start_at : Int)
    (data : List Json) (reqs : List Request) (ps : List (String × Json))
    (isLast : Json) (values : List Json)
    (hps : paginated_params loads fetch_size start_at params_json = .ok ps)
    (hst : (server k).status_code = 200)
    (hlast : (server k).body.get? "isLast" = some isLast)
    (hvals : (server k).body.get? "values" = some (.arr values)) :
    fetch_paginated_go server loads url fetch_size params_json (fuel + 1) k start_at data reqs =
      if isLast.truthy then
        some (.ok (data ++ values), reqs ++ [⟨url, ps⟩])
      else
        fetch_paginated_go server loads url fetch_size params_json fuel
          (k + 1) (start_at + values.length) (data ++ values) (reqs ++ [⟨url, ps⟩]) := by
  simp only [fetch_paginated_go, hps, hst, hlast, hvals]
  norm_num

/-- One successful iteration of the `fetch_issues` loop: `totalItems` is
replaced by the page's `total`, the page's `issues` are appended in
order, and `startAt` advances by their length. -/
theorem fetch_issues_go_step (server : Nat → HttpResponse) (url : String)
    (fetch_size : Int) (fields : Option (List String)) (jql : Option String)
    (fuel k : Nat) (start_at total_items : Int) (data : List Json)
    (reqs : List Request) (total : Int) (issues : List Json)
    (hlt : start_at < total_items)
    (hst : (server k).status_code = 200)
    (htot : (server k).body.get? "total" = some (.num total))
    (hiss : (server k).body.get? "issues" = some (.arr issues)) :
    fetch_issues_go server url fetch_size fields jql (fuel + 1) k start_at total_items data reqs =
      fetch_issues_go server url fetch_size fields jql fuel (k + 1)
        (start_at + issues.length) total (data ++ issues)
        (reqs ++ [⟨url, _get_params fetch_size fields jql start_at⟩]) := by
  simp only [fetch_issues_go, hlt, hst, htot, hiss]
  norm_num

/-- Running the `fetch_paginated` loop across `m` consecutive
well-formed non-final pages: the loop reaches request `k + m` with
`startAt` advanced by, and the accumulator extended with, the
concatenated `values` of those pages, having issued `m` requests. -/
theorem fetch_paginated_go_run (server : Nat → HttpResponse)
    (loads : String → Except String Json) (url : String) (fetch_size : Int)
    (params_json : Option String)
    (hpp : ∀ s : Int, ∃ ps, paginated_params loads fetch_size s params_json = .ok ps) :
    ∀ (m k : Nat), (∀ i, i < m → contPage server (k + i)) →
    ∀ (fuel : Nat) (start_at : Int) (data : List Json) (reqs : List Request),
    ∃ rs : List Request, rs.length = m ∧
      fetch_paginated_go server loads url fetch_size params_json (fuel + m) k start_at data reqs =
      fetch_paginated_go server loads url fetch_size params_json fuel (k + m)
        (start_at + (valuesCat server k m).length)
        (data ++ valuesCat server k m) (reqs ++ rs) := by
  intro m
  induction m with
  | zero =>
    intro k _ fuel start_at data reqs
    refine ⟨[], rfl, ?_⟩
    simp [valuesCat]
  | succ m ih =>
    intro k hgood fuel start_at data reqs
    obtain ⟨ps, hps⟩ := hpp start_at
    obtain ⟨hst, ⟨j, hj, hjf⟩, hvals⟩ := hgood 0 (Nat.succ_pos m)
    have hk0 : k + 0 = k := rfl
    rw [hk0] at hst hj hvals
    have hstep := fetch_paginated_go_step server loads url fetch_size params_json
      (fuel + m) k start_at data reqs ps j (pageValues server k) hps hst hj hvals
    rw [hjf] at hstep
    simp only [if_neg (Bool.false_ne_true)] at hstep
    have hshift : ∀ i, i < m → contPage server (k + 1 + i) := by
      intro i hi
      have hg := hgood (i + 1) (by omega)
      have harg : k + (i + 1) = k + 1 + i := by omega
      rw [harg] at hg
      exact hg
    obtain ⟨rs, hlen, hrun⟩ := ih (k + 1) hshift
      fuel (start_at + (pageValues server k).length)
      (data ++ pageValues server k) (reqs ++ [⟨url, ps⟩])
    refine ⟨⟨url, ps⟩ :: rs, by simp [hlen], ?_⟩
    have hfuel : fuel + (m + 1) = (fuel + m) + 1 := rfl
    rw [hfuel, hstep, hrun]
    simp [valuesCat, Nat.add_comm, Nat.add_left_comm, Nat.add_assoc,
      List.append_assoc, add_assoc]

/-- Running the `fetch_issues` loop across `m + 1` consecutive
well-formed pages whose totals keep the loop going: the loop reaches
request `k + m + 1` with `totalItems` equal to the last page's `total`,
`startAt` advanced by, and the accumulator extended with, the
concatenated `issues`, having issued `m + 1` requests. -/
theorem fetch_issues_go_run (server : Nat → HttpResponse) (url : String)
    (fetch_size : Int) (fields : Option (List String)) (jql : Option String) :
    ∀ (m k : Nat), (∀ i, i ≤ m → issuesPage server (k + i)) →
    ∀ (start_at total_items : Int), start_at < total_items →
    (∀ i, i < m → start_at + (issuesCat server k (i + 1)).length < pageTotal server (k + i)) →
    ∀ (fuel : Nat) (data : List Json) (reqs : List Request),
    ∃ rs : List Request, rs.length = m + 1 ∧
      fetch_issues_go server url fetch_size fields jql (fuel + (m + 1)) k start_at total_items data reqs =
      fetch_issues_go server url fetch_size fields jql fuel (k + (m + 1))
        (start_at + (issuesCat server k (m + 1)).length) (pageTotal server (k + m))
        (data ++ issuesCat server k (m + 1)) (reqs ++ rs) := by
  intro m
  induction m with
  | zero =>
    intro k hgood start_at total_items hlt _ fuel data reqs
    obtain ⟨hst, htot, hiss⟩ := hgood 0 (Nat.le_refl 0)
    have hk0 : k + 0 = k := rfl
    rw [hk0] at hst htot hiss
    have hstep := fetch_issues_go_step server url fetch_size fields jql fuel k
      start_at total_items data reqs (pageTotal server k) (pageIssues server k)
      hlt hst htot hiss
    refine ⟨[⟨url, _get_params fetch_size fields jql start_at⟩], rfl, ?_⟩
    rw [hstep]
    simp [issuesCat]
  | succ m ih =>
    intro k hgood start_at total_items hlt htrans fuel data reqs
    obtain ⟨hst, htot, hiss⟩ := hgood 0 (Nat.zero_le _)
    have hk0 : k + 0 = k := rfl
    rw [hk0] at hst htot hiss
    have hstep := fetch_issues_go_step server url fetch_size fields jql
      (fuel + (m + 1)) k start_at total_items data reqs
      (pageTotal server k) (pageIssues server k) hlt hst htot hiss
    have hshift : ∀ i, i ≤ m → issuesPage server (k + 1 + i) := by
      intro i hi
      have hg := hgood (i + 1) (by omega)
      have harg : k + (i + 1) = k + 1 + i := by omega
      rw [harg] at hg
      exact hg
    have hlt1 : start_at + (pageIssues server k).length < pageTotal server k := by
      have ht := htrans 0 (Nat.succ_pos m)
      simpa [issuesCat] using ht
    have htrans1 : ∀ i, i < m →
        start_at + (pageIssues server k).length + (issuesCat server (k + 1) (i + 1)).length
          < pageTotal server (k + 1 + i) := by
      intro i hi
      have ht := htrans (i + 1) (by omega)
      have harg : k + (i + 1) = k + 1 + i := by omega
      rw [harg] at ht
      have hcat : issuesCat server k (i + 2) = pageIssues server k ++ issuesCat server (k + 1) (i + 1) := rfl
      rw [hcat] at ht
      simp only [List.length_append, Nat.cast_add] at ht
      linarith [ht]
    obtain ⟨rs, hlen, hrun⟩ := ih (k + 1) hshift
      (start_at + (pageIssues server k).length) (pageTotal server k)
      hlt1 htrans1 fuel (data ++ pageIssues server k)
      (reqs ++ [⟨url, _get_params fetch_size fields jql start_at⟩])
    refine ⟨⟨url, _get_params fetch_size fields jql start_at⟩ :: rs, by simp [hlen], ?_⟩
    have hfuel : fuel + (m + 1 + 1) = (fuel + (m + 1)) + 1 := rfl
    rw [hfuel, hstep, hrun]
    simp [issuesCat, Nat.add_comm, Nat.add_left_comm, Nat.add_assoc,
      List.append_assoc, add_assoc]

/-- The `fetch_issues` loop only ever appends to the request log. -/
theorem fetch_issues_go_reqs_mono (server : Nat → HttpResponse) (url : String)
    (fetch_size : Int) (fields : Option (List String)) (jql : Option String) :
    ∀ (fuel k : Nat) (start_at total_items : Int) (data : List Json)
      (reqs : List Request) (res : Except PyError (List Json)) (reqs' : List Request),
    fetch_issues_go server url fetch_size fields jql fuel k start_at total_items data reqs =
      some (res, reqs') →
    ∃ tail, reqs' = reqs ++ tail := by
  intro fuel
  induction fuel with
  | zero =>
    intro k s t d reqs res reqs' h
    simp [fetch_issues_go] at h
  | succ fuel ih =>
    intro k s t d reqs res reqs' h
    simp only [fetch_issues_go] at h
    repeat' split at h
    all_goals first
      | (obtain ⟨tail, htail⟩ := ih _ _ _ _ _ _ _ h
         exact ⟨⟨url, _get_params fetch_size fields jql s⟩ :: tail,
           by rw [htail]; simp⟩)
      | (injection h with h; injection h with h1 h2;
         exact ⟨[⟨url, _get_params fetch_size fields jql s⟩], h2.symm⟩)
      | (injection h with h; injection h with h1 h2; exact ⟨[], by simp [← h2]⟩)

/-- When the loop guard holds, the first request of a `fetch_issues`
loop run carries the parameters built from the entry `startAt`. -/
theorem fetch_issues_go_first_req (server : Nat → HttpResponse) (url : String)
    (fetch_size : Int) (fields : Option (List String)) (jql : Option String) :
    ∀ (fuel k : Nat) (s t : Int) (d : List Json) (reqs : List Request)
      (res : Except PyError (List Json)) (reqs' : List Request),
    s < t →
    fetch_issues_go server url fetch_size fields jql (fuel + 1) k s t d reqs =
      some (res, reqs') →
    ∃ tail, reqs' = (reqs ++ [⟨url, _get_params fetch_size fields jql s⟩]) ++ tail := by
  intro fuel k s t d reqs res reqs' hlt h
  simp only [fetch_issues_go, if_pos hlt] at h
  repeat' split at h
  all_goals first
    | exact fetch_issues_go_reqs_mono server url fetch_size fields jql
        fuel _ _ _ _ _ _ _ h
    | (injection h with h; injection h with h1 h2; exact ⟨[], by simp [← h2]⟩)

/-- Splitting membership in a request log extended by one request. -/
theorem req_append_case {reqs : List Request} {url : String}
    {ps : List (String × Json)} {req : Request}
    (h : req ∈ reqs ++ [⟨url, ps⟩]) :
    req ∈ reqs ∨ (req.url = url ∧ req.params = ps) := by
  rcases List.mem_append.mp h with h1 | h1
  · exact Or.inl h1
  · obtain rfl := List.mem_singleton.mp h1
    exact Or.inr ⟨rfl, rfl⟩

/-- Every request the `fetch_issues` loop adds to the log goes to `url`
and carries parameters built by `_get_params` at some offset. -/
theorem fetch_issues_go_reqs_params (server : Nat → HttpResponse) (url : String)
    (fetch_size : Int) (fields : Option (List String)) (jql : Option String) :
    ∀ (fuel k : Nat) (s t : Int) (d : List Json) (reqs : List Request)
      (res : Except PyError (List Json)) (reqs' : List Request),
    fetch_issues_go server url fetch_size fields jql fuel k s t d reqs =
      some (res, reqs') →
    ∀ req ∈ reqs', req ∈ reqs ∨
      (req.url = url ∧ ∃ s', req.params = _get_params fetch_size fields jql s') := by
  intro fuel
  induction fuel with
  | zero =>
    intro k s t d reqs res reqs' h
    simp [fetch_issues_go] at h
  | succ fuel ih =>
    intro k s t d reqs res reqs' h req hreq
    simp only [fetch_issues_go] at h
    repeat' split at h
    all_goals first
      | (rcases ih _ _ _ _ _ _ _ h req hreq with hin | hshape
         · rcases req_append_case hin with h1 | ⟨hu, hp⟩
           · exact Or.inl h1
           · exact Or.inr ⟨hu, _, hp⟩
         · exact Or.inr hshape)
      | (injection h with h; injection h with h1 h2; rw [← h2] at hreq
         rcases req_append_case hreq with h1 | ⟨hu, hp⟩
         · exact Or.inl h1
         · exact Or.inr ⟨hu, _, hp⟩)
      | (injection h with h; injection h with h1 h2; rw [← h2] at hreq
         exact Or.inl hreq)

/-- A server that only ever answers well-formed non-final pages keeps
the `fetch_paginated` loop running forever. -/
theorem fetch_paginated_go_diverges_of_never_last (server : Nat → HttpResponse)
    (loads : String → Except String Json) (url : String) (fetch_size : Int)
    (params_json : Option String)
    (hpp : ∀ s : Int, ∃ ps, paginated_params loads fetch_size s params_json = .ok ps)
    (hbad : ∀ k, contPage server k) :
    ∀ (fuel k : Nat) (start_at : Int) (data : List Json) (reqs : List Request),
    fetch_paginated_go server loads url fetch_size params_json fuel k start_at data reqs = none := by
  intro fuel
  induction fuel with
  | zero => intro k s d r; rfl
  | succ fuel ih =>
    intro k s d r
    obtain ⟨ps, hps⟩ := hpp s
    obtain ⟨hst, ⟨j, hj, hjf⟩, hvals⟩ := hbad k
    have hstep := fetch_paginated_go_step server loads url fetch_size params_json
      fuel k s d r ps j (pageValues server k) hps hst hj hvals
    rw [hjf] at hstep
    simp only [if_neg (Bool.false_ne_true)] at hstep
    rw [hstep]
    exact ih _ _ _ _

/-- A server that only ever answers well-formed pages with empty
`issues` and a positive `total` keeps the `fetch_issues` loop (entered
with `startAt = 0` and a positive `totalItems`) running forever. -/
theorem fetch_issues_go_diverges_of_empty (server : Nat → HttpResponse)
    (url : String) (fetch_size : Int) (fields : Option (List String))
    (jql : Option String)
    (hbad : ∀ k, issuesPage server k ∧ pageIssues server k = [] ∧ 0 < pageTotal server k) :
    ∀ (fuel k : Nat) (total_items : Int), 0 < total_items →
    ∀ (data : List Json) (reqs : List Request),
    fetch_issues_go server url fetch_size fields jql fuel k 0 total_items data reqs = none := by
  intro fuel
  induction fuel with
  | zero => intro k t ht d r; rfl
  | succ fuel ih =>
    intro k t ht d r
    obtain ⟨⟨hst, htot, hiss⟩, hemp, hpos⟩ := hbad k
    rw [hemp] at hiss
    have hstep := fetch_issues_go_step server url fetch_size fields jql fuel k
      0 t d r (pageTotal server k) [] ht hst htot hiss
    rw [hstep]
    have hrec := ih (k + 1) (pageTotal server k) hpos (d ++ [])
      (r ++ [⟨url, _get_params fetch_size fields jql 0⟩])
    simpa using hrec

/-- A non-200 response aborts the `fetch_paginated` loop with a
`JiraApiError` built from the raw body and status code, after adding the
one failing request to the log. -/
theorem fetch_paginated_go_abort (server : Nat → HttpResponse)
    (loads : String → Except String Json) (url : String) (fetch_size : Int)
    (params_json : Option String) (fuel k : Nat) (start_at : Int)
    (data : List Json) (reqs : List Request) (ps : List (String × Json))
    (hps : paginated_params loads fetch_size start_at params_json = .ok ps)
    (hst : (server k).status_code ≠ 200) :
    fetch_paginated_go server loads url fetch_size params_json (fuel + 1) k start_at data reqs =
      some (.error (.jiraApiError
          ("Failed to fetch paginated values: " ++ (server k).text)
          (server k).status_code),
        reqs ++ [⟨url, ps⟩]) := by
  simp only [fetch_paginated_go, hps, if_pos hst]

/-- A non-200 response aborts the `fetch_issues` loop with a
`JiraApiError` built from the raw body and status code, after adding the
one failing request to the log. -/
theorem fetch_issues_go_abort (server : Nat → HttpResponse) (url : String)
    (fetch_size : Int) (fields : Option (List String)) (jql : Option String)
    (fuel k : Nat) (start_at total_items : Int) (data : List Json)
    (reqs : List Request)
    (hlt : start_at < total_items)
    (hst : (server k).status_code ≠ 200) :
    fetch_issues_go server url fetch_size fields jql (fuel + 1) k start_at total_items data reqs =
      some (.error (.jiraApiError
          ("Failed to fetch issues: " ++ (server k).text)
          (server k).status_code),
        reqs ++ [⟨url, _get_params fetch_size fields jql start_at⟩]) := by
  simp only [fetch_issues_go, if_pos hlt, if_pos hst]

/-- With a valid endpoint and fetch size, `fetch_paginated` runs its
loop from request 0, offset 0, empty accumulator and empty log. -/
theorem fetch_paginated_unfold (urljoin : String → String → String)
    (conn : JiraConnection) (server : Nat → HttpResponse)
    (loads : String → Except String Json) (e : String) (fetch_size : Int)
    (params_json : Option String) (fuel : Nat)
    (he : e ≠ "") (hfs : ¬ fetch_size < 1) :
    fetch_paginated urljoin conn server loads (some e) fetch_size params_json fuel =
      fetch_paginated_go server loads (urljoin conn.base_url e) fetch_size
        params_json fuel 0 0 [] [] := by
  simp only [fetch_paginated, _get_url, if_neg he, if_neg hfs]

/-- With a valid endpoint and fetch size, `fetch_issues` runs its loop
from request 0, offset 0, `totalItems = fetch_size`, empty accumulator
and empty log. -/
theorem fetch_issues_unfold (urljoin : String → String → String)
    (conn : JiraConnection) (server : Nat → HttpResponse) (e : String)
    (fetch_size : Int) (fields_str : Option String) (jql : Option String)
    (fuel : Nat) (he : e ≠ "") (hfs : ¬ fetch_size < 1) :
    fetch_issues urljoin conn server (some e) fetch_size fields_str jql fuel =
      fetch_issues_go server (urljoin conn.base_url e) fetch_size
        (issueFields fields_str) jql fuel 0 0 fetch_size [] [] := by
  simp only [fetch_issues, _get_url, if_neg he, if_neg hfs]

/-! ## The claims -/


/-- Claim C1: `fetch_paginated` appends each page's `values` in order and
advances `startAt` by their length, stopping as soon as `isLast` is
truthy; on the spec's two-page example with `fetch_size = 1` it returns
`[{id:1},{id:2}]` with exactly 2 requests whose `startAt` are 0 and 1. -/
theorem C1_fetch_paginated_appends_and_advances :
    (∀ (server : Nat → HttpResponse) (loads : String → Except String Json)
       (url : String) (fetch_size : Int) (params_json : Option String)
       (fuel k : Nat) (start_at : Int) (data : List Json) (reqs : List Request)
       (ps : List (String × Json)) (isLast : Json) (values : List Json),
       paginated_params loads fetch_size start_at params_json = .ok ps →
       (server k).status_code = 200 →
       (server k).body.get? "isLast" = some isLast →
       (server k).body.get? "values" = some (.arr values) →
       fetch_paginated_go server loads url fetch_size params_json (fuel + 1) k start_at data reqs =
         if isLast.truthy then
           some (.ok (data ++ values), reqs ++ [⟨url, ps⟩])
         else
           fetch_paginated_go server loads url fetch_size params_json fuel
             (k + 1) (start_at + values.length) (data ++ values) (reqs ++ [⟨url, ps⟩])) ∧
    fetch_paginated urljoin0 conn0 c1server loads0 (some "/ep") 1 none 10 =
      some (.ok [.obj [("id", .num 1)], .obj [("id", .num 2)]],
        [⟨"https://jira.example/ep", [("startAt", .num 0), ("maxResults", .num 1)]⟩,
         ⟨"https://jira.example/ep", [("startAt", .num 1), ("maxResults", .num 1)]⟩]) := by
  constructor
  · intro server loads url fetch_size params_json fuel k start_at data reqs ps isLast values
      hps hst hlast hvals
    exact fetch_paginated_go_step server loads url fetch_size params_json fuel k
      start_at data reqs ps isLast values hps hst hlast hvals
  · rfl

/-- Claim C2: `fetch_issues` starts with `totalItems = fetch_size` so at
least one request is issued; each page overwrites `totalItems` with the
response's `total`, appends `issues` and advances `startAt`; on the
spec's two-page example with `fetch_size = 1` it returns
`[{id:1},{id:2}]` with exactly 2 requests. -/
theorem C2_fetch_issues_loop :
    (∀ (server : Nat → HttpResponse) (url : String) (fetch_size : Int)
       (fields : Option (List String)) (jql : Option String) (fuel k : Nat)
       (start_at total_items : Int) (data : List Json) (reqs : List Request)
       (total : Int) (issues : List Json),
       start_at < total_items →
       (server k).status_code = 200 →
       (server k).body.get? "total" = some (.num total) →
       (server k).body.get? "issues" = some (.arr issues) →
       fetch_issues_go server url fetch_size fields jql (fuel + 1) k start_at total_items data reqs =
         fetch_issues_go server url fetch_size fields jql fuel (k + 1)
           (start_at + issues.length) total (data ++ issues)
           (reqs ++ [⟨url, _get_params fetch_size fields jql start_at⟩])) ∧
    (∀ (urljoin : String → String → String) (conn : JiraConnection)
       (server : Nat → HttpResponse) (e : String) (fetch_size : Int)
       (fields_str jql : Option String) (fuel : Nat)
       (res : Except PyError (List Json)) (reqs : List Request),
       e ≠ "" → 1 ≤ fetch_size →
       fetch_issues urljoin conn server (some e) fetch_size fields_str jql fuel =
         some (res, reqs) →
       1 ≤ reqs.length) ∧
    fetch_issues urljoin0 conn0 c2server (some "/ep") 1 none none 10 =
      some (.ok [.obj [("id", .num 1)], .obj [("id", .num 2)]],
        [⟨"https://jira.example/ep", [("startAt", .num 0), ("maxResults", .num 1)]⟩,
         ⟨"https://jira.example/ep", [("startAt", .num 1), ("maxResults", .num 1)]⟩]) := by
  refine ⟨?_, ?_, by rfl⟩
  · intro server url fetch_size fields jql fuel k start_at total_items data reqs
      total issues hlt hst htot hiss
    exact fetch_issues_go_step server url fetch_size fields jql fuel k start_at
      total_items data reqs total issues hlt hst htot hiss
  · intro urljoin conn server e fetch_size fields_str jql fuel res reqs he hfs h
    rw [fetch_issues_unfold urljoin conn server e fetch_size fields_str jql fuel
      he (by omega)] at h
    cases fuel with
    | zero => simp [fetch_issues_go] at h
    | succ fuel =>
      obtain ⟨tail, htail⟩ := fetch_issues_go_first_req server
        (urljoin conn.base_url e) fetch_size (issueFields fields_str) jql fuel
        0 0 fetch_size [] [] res reqs (by omega) h
      rw [htail]
      simp

/-- Claim C5: malformed `params_json` makes `fetch_paginated` fail with
the JSON-decode error propagated unmodified, before any request is
issued. -/
theorem C5_malformed_params :
    ∀ (urljoin : String → String → String) (conn : JiraConnection)
      (server : Nat → HttpResponse) (loads : String → Except String Json)
      (e : String) (fetch_size : Int) (s msg : String) (fuel : Nat),
    e ≠ "" → 1 ≤ fetch_size → loads s = .error msg → 1 ≤ fuel →
    fetch_paginated urljoin conn server loads (some e) fetch_size (some s) fuel =
      some (.error (.jsonDecodeError msg), []) := by
  intro urljoin conn server loads e fetch_size s msg fuel he hfs hloads hfuel
  obtain ⟨fuel, rfl⟩ : ∃ f, fuel = f + 1 := ⟨fuel - 1, by omega⟩
  rw [fetch_paginated_unfold urljoin conn server loads e fetch_size (some s)
    (fuel + 1) he (by omega)]
  simp only [fetch_paginated_go, paginated_params, hloads]

theorem C5_malformed_params_witness :
    fetch_paginated urljoin0 conn0 c1server loads0 (some "/ep") 1 (some "bad") 3 =
      some (.error (.jsonDecodeError "Expecting value"), []) :=
  C5_malformed_params urljoin0 conn0 c1server loads0 "/ep" 1 "bad" "Expecting value" 3
    (by decide) (by omega) (by rfl) (by omega)

/-- Claim C6: an empty or absent endpoint makes all three operations
fail with `ValueError` and an empty request log, and a non-positive
fetch size does the same for the two pagination operations. -/
theorem C6_invalid_argument :
    (∀ (urljoin : String → String → String) (conn : JiraConnection)
       (server : Nat → HttpResponse) (endpoint : Option String),
       endpoint = none ∨ endpoint = some "" →
       fetch_array urljoin conn server endpoint =
         (.error (.valueError "endpoint must not be empty"), [])) ∧
    (∀ (urljoin : String → String → String) (conn : JiraConnection)
       (server : Nat → HttpResponse) (loads : String → Except String Json)
       (endpoint : Option String) (fetch_size : Int)
       (params_json : Option String) (fuel : Nat),
       endpoint = none ∨ endpoint = some "" →
       fetch_paginated urljoin conn server loads endpoint fetch_size params_json fuel =
         some (.error (.valueError "endpoint must not be empty"), [])) ∧
    (∀ (urljoin : String → String → String) (conn : JiraConnection)
       (server : Nat → HttpResponse) (loads : String → Except String Json)
       (e : String) (fetch_size : Int) (params_json : Option String) (fuel : Nat),
       fetch_size < 1 → e ≠ "" →
       fetch_paginated urljoin conn server loads (some e) fetch_size params_json fuel =
         some (.error (.valueError "fetch_size must be >= 1"), [])) ∧
    (∀ (urljoin : String → String → String) (conn : JiraConnection)
       (server : Nat → HttpResponse) (endpoint : Option String)
       (fetch_size : Int) (fields_str jql : Option String) (fuel : Nat),
       endpoint = none ∨ endpoint = some "" →
       fetch_issues urljoin conn server endpoint fetch_size fields_str jql fuel =
         some (.error (.valueError "endpoint must not be empty"), [])) ∧
    (∀ (urljoin : String → String → String) (conn : JiraConnection)
       (server : Nat → HttpResponse) (e : String) (fetch_size : Int)
       (fields_str jql : Option String) (fuel : Nat),
       fetch_size < 1 → e ≠ "" →
       fetch_issues urljoin conn server (some e) fetch_size fields_str jql fuel =
         some (.error (.valueError "fetch_size must be >= 1"), [])) := by
  refine ⟨?_, ?_, ?_, ?_, ?_⟩
  · rintro urljoin conn server endpoint (rfl | rfl) <;> rfl
  · rintro urljoin conn server loads endpoint fetch_size params_json fuel (rfl | rfl) <;> rfl
  · intro urljoin conn server loads e fetch_size params_json fuel hlt he
    simp only [fetch_paginated, _get_url, if_neg he, if_pos hlt]
  · rintro urljoin conn server endpoint fetch_size fields_str jql fuel (rfl | rfl) <;> rfl
  · intro urljoin conn server e fetch_size fields_str jql fuel hlt he
    simp only [fetch_issues, _get_url, if_neg he, if_pos hlt]

/-- Claim C9: on a 200 response, `fetch_array` returns the parsed body
verbatim, whatever JSON document the server answers. -/
theorem C9_fetch_array_roundtrip :
    ∀ (urljoin : String → String → String) (conn : JiraConnection)
      (server : Nat → HttpResponse) (e : String),
    e ≠ "" → (server 0).status_code = 200 →
    fetch_array urljoin conn server (some e) =
      (.ok (server 0).body, [⟨urljoin conn.base_url e, []⟩]) := by
  intro urljoin conn server e he h200
  simp only [fetch_array, _get_url, if_neg he, h200]
  norm_num

theorem C9_fetch_array_roundtrip_witness :
    fetch_array urljoin0 conn0 c9server (some "/ep") =
      (.ok (.arr [.num 1, .num 2]), [⟨"https://jira.example/ep", []⟩]) :=
  C9_fetch_array_roundtrip urljoin0 conn0 c9server "/ep" (by decide) (by rfl)

/-- Claim C3: when the server's `(k+1)`-th response is the first with a
non-200 status, both pagination operations make exactly `k + 1` requests
and fail with a `JiraApiError` carrying that response's raw body and
status code; the error is the whole outcome (accumulated pages are
discarded).  The last conjunct shows a concrete mid-pagination failure:
one good page, then a 500. -/
theorem C3_abort_on_first_non200 :
    (∀ (urljoin : String → String → String) (conn : JiraConnection)
       (server : Nat → HttpResponse) (loads : String → Except String Json)
       (e : String) (fetch_size : Int) (params_json : Option String) (k fuel : Nat),
       e ≠ "" → ¬ fetch_size < 1 →
       (∀ s : Int, ∃ ps, paginated_params loads fetch_size s params_json = .ok ps) →
       (∀ i, i < k → contPage server i) →
       (server k).status_code ≠ 200 →
       ∃ reqs, fetch_paginated urljoin conn server loads (some e) fetch_size params_json (fuel + (k + 1)) =
         some (.error (.jiraApiError
             ("Failed to fetch paginated values: " ++ (server k).text)
             (server k).status_code),
           reqs) ∧ reqs.length = k + 1) ∧
    (∀ (urljoin : String → String → String) (conn : JiraConnection)
       (server : Nat → HttpResponse) (e : String) (fetch_size : Int)
       (fields_str jql : Option String) (k fuel : Nat),
       e ≠ "" → 1 ≤ fetch_size →
       (∀ i, i < k → issuesPage server i) →
       (∀ i, i < k → ((issuesCat server 0 (i + 1)).length : Int) < pageTotal server i) →
       (server k).status_code ≠ 200 →
       ∃ reqs, fetch_issues urljoin conn server (some e) fetch_size fields_str jql (fuel + (k + 1)) =
         some (.error (.jiraApiError
             ("Failed to fetch issues: " ++ (server k).text)
             (server k).status_code),
           reqs) ∧ reqs.length = k + 1) ∧
    fetch_paginated urljoin0 conn0 c3server loads0 (some "/ep") 1 none 10 =
      some (.error (.jiraApiError "Failed to fetch paginated values: boom" 500),
        [⟨"https://jira.example/ep", [("startAt", .num 0), ("maxResults", .num 1)]⟩,
         ⟨"https://jira.example/ep", [("startAt", .num 1), ("maxResults", .num 1)]⟩]) := by
  refine ⟨?_, ?_, by rfl⟩
  · intro urljoin conn server loads e fetch_size params_json k fuel he hfs hpp hgood hbad
    rw [fetch_paginated_unfold urljoin conn server loads e fetch_size params_json
      (fuel + (k + 1)) he hfs]
    have harith : fuel + (k + 1) = (fuel + 1) + k := by omega
    rw [harith]
    have hgood0 : ∀ i, i < k → contPage server (0 + i) := by
      intro i hi
      have h0 : 0 + i = i := by omega
      rw [h0]
      exact hgood i hi
    obtain ⟨rs, hlen, hrun⟩ := fetch_paginated_go_run server loads
      (urljoin conn.base_url e) fetch_size params_json hpp k 0 hgood0
      (fuel + 1) 0 [] []
    rw [hrun]
    obtain ⟨ps, hps⟩ := hpp (0 + (valuesCat server 0 k).length)
    have h0k : 0 + k = k := by omega
    rw [h0k]
    rw [fetch_paginated_go_abort server loads (urljoin conn.base_url e)
      fetch_size params_json fuel k _ _ _ ps hps hbad]
    exact ⟨([] ++ rs) ++ [⟨urljoin conn.base_url e, ps⟩], rfl, by simp [hlen]⟩
  · intro urljoin conn server e fetch_size fields_str jql k fuel he hfs hgood htrans hbad
    rw [fetch_issues_unfold urljoin conn server e fetch_size fields_str jql
      (fuel + (k + 1)) he (by omega)]
    cases k with
    | zero =>
      rw [fetch_issues_go_abort server (urljoin conn.base_url e) fetch_size
        (issueFields fields_str) jql fuel 0 0 fetch_size [] []
        (by exact_mod_cast by omega) hbad]
      exact ⟨_, rfl, by simp⟩
    | succ m =>
      have harith : fuel + (m + 1 + 1) = (fuel + 1) + (m + 1) := by omega
      rw [harith]
      have hgood0 : ∀ i, i ≤ m → issuesPage server (0 + i) := by
        intro i hi
        have h0 : 0 + i = i := by omega
        rw [h0]
        exact hgood i (by omega)
      have htrans0 : ∀ i, i < m →
          (0 : Int) + (issuesCat server 0 (i + 1)).length < pageTotal server (0 + i) := by
        intro i hi
        have h0 : 0 + i = i := by omega
        rw [h0]
        have := htrans i (by omega)
        linarith [this]
      obtain ⟨rs, hlen, hrun⟩ := fetch_issues_go_run server
        (urljoin conn.base_url e) fetch_size (issueFields fields_str) jql m 0
        hgood0 0 fetch_size (by omega) htrans0 (fuel + 1) [] []
      rw [hrun]
      have h0m : 0 + (m + 1) = m + 1 := by omega
      have h0m' : 0 + m = m := by omega
      rw [h0m, h0m']
      have hcont : (0 : Int) + (issuesCat server 0 (m + 1)).length < pageTotal server m := by
        have := htrans m (by omega)
        linarith [this]
      rw [fetch_issues_go_abort server (urljoin conn.base_url e) fetch_size
        (issueFields fields_str) jql fuel (m + 1) _ _ _ _ hcont hbad]
      refine ⟨_, rfl, by simp [hlen]⟩

/-- Claim C7: every non-200 response yields a `JiraApiError` whose
message is the operation's context prefix, `": "`, then the raw body;
the status code is carried separately and the display string is
`"<message> (Status Code: <statusCode>)"`; concretely `fetch_array` on a
500 with body `"error message"` displays as
`"Failed to fetch data as array: error message (Status Code: 500)"`. -/
theorem C7_api_error_format :
    (∀ (message : String) (code : Int),
       jiraApiErrorDisplay message code =
         message ++ " (Status Code: " ++ toString code ++ ")") ∧
    (∀ (urljoin : String → String → String) (conn : JiraConnection)
       (server : Nat → HttpResponse) (e : String),
       e ≠ "" → (server 0).status_code ≠ 200 →
       fetch_array urljoin conn server (some e) =
         (.error (.jiraApiError
             ("Failed to fetch data as array" ++ ": " ++ (server 0).text)
             (server 0).status_code),
           [⟨urljoin conn.base_url e, []⟩])) ∧
    (∀ (urljoin : String → String → String) (conn : JiraConnection)
       (server : Nat → HttpResponse) (loads : String → Except String Json)
       (e : String) (fetch_size : Int) (params_json : Option String)
       (fuel : Nat) (ps : List (String × Json)),
       e ≠ "" → ¬ fetch_size < 1 →
       paginated_params loads fetch_size 0 params_json = .ok ps →
       (server 0).status_code ≠ 200 →
       fetch_paginated urljoin conn server loads (some e) fetch_size params_json (fuel + 1) =
         some (.error (.jiraApiError
             ("Failed to fetch paginated values" ++ ": " ++ (server 0).text)
             (server 0).status_code),
           [⟨urljoin conn.base_url e, ps⟩])) ∧
    (∀ (urljoin : String → String → String) (conn : JiraConnection)
       (server : Nat → HttpResponse) (e : String) (fetch_size : Int)
       (fields_str jql : Option String) (fuel : Nat),
       e ≠ "" → 1 ≤ fetch_size →
       (server 0).status_code ≠ 200 →
       fetch_issues urljoin conn server (some e) fetch_size fields_str jql (fuel + 1) =
         some (.error (.jiraApiError
             ("Failed to fetch issues" ++ ": " ++ (server 0).text)
             (server 0).status_code),
           [⟨urljoin conn.base_url e,
             _get_params fetch_size (issueFields fields_str) jql 0⟩])) ∧
    ((fetch_array urljoin0 conn0 err500server (some "/ep")).1 =
       .error (.jiraApiError "Failed to fetch data as array: error message" 500) ∧
     jiraApiErrorDisplay "Failed to fetch data as array: error message" 500 =
       "Failed to fetch data as array: error message (Status Code: 500)") := by
  refine ⟨fun message code => rfl, ?_, ?_, ?_, by exact ⟨rfl, rfl⟩⟩
  · intro urljoin conn server e he hbad
    have hpre : ("Failed to fetch data as array" ++ ": " : String) =
        "Failed to fetch data as array: " := rfl
    simp only [fetch_array, _get_url, if_neg he, if_pos hbad, hpre]
  · intro urljoin conn server loads e fetch_size params_json fuel ps he hfs hps hbad
    rw [fetch_paginated_unfold urljoin conn server loads e fetch_size params_json
      (fuel + 1) he hfs]
    rw [fetch_paginated_go_abort server loads (urljoin conn.base_url e)
      fetch_size params_json fuel 0 0 [] [] ps hps hbad]
    rfl
  · intro urljoin conn server e fetch_size fields_str jql fuel he hfs hbad
    rw [fetch_issues_unfold urljoin conn server e fetch_size fields_str jql
      (fuel + 1) he (by omega)]
    rw [fetch_issues_go_abort server (urljoin conn.base_url e) fetch_size
      (issueFields fields_str) jql fuel 0 0 fetch_size [] []
      (by exact_mod_cast by omega) hbad]
    rfl

/-- Claim C4 as stated is false on two counts.  First, `c4neServer`
always answers 200 with `isLast:false` and a non-empty `values` list, so
by the claim's termination clause `fetch_paginated` should terminate on
it; in fact the loop never exits (termination is driven by `isLast`
alone, not by progress of `startAt`).  Second, `c4aServer` answers
`isLast:true` on the first request and, from the second request on,
always answers the non-advancing 200 / `isLast:false` / empty-`values`
page, so by the claim's divergence clause ("from some point on")
`fetch_paginated` should never terminate on it; in fact it returns after
one request. -/
theorem C4_counterexample :
    (fetch_paginated_diverges urljoin0 conn0 c4neServer loads0 (some "/ep") 1 none ∧
     (∀ k, (c4neServer k).status_code = 200) ∧
     (∀ k, (c4neServer k).body.get? "isLast" = some (.bool false)) ∧
     (∀ k, (c4neServer k).body.get? "values" = some (.arr [.obj [("id", .num 1)]]))) ∧
    (fetch_paginated urljoin0 conn0 c4aServer loads0 (some "/ep") 1 none 2 =
       some (.ok [.obj [("id", .num 2)]],
         [⟨"https://jira.example/ep", [("startAt", .num 0), ("maxResults", .num 1)]⟩]) ∧
     (∀ k, 1 ≤ k → c4aServer k = emptyNonLastPage) ∧
     (emptyNonLastPage.status_code = 200 ∧
      emptyNonLastPage.body.get? "isLast" = some (.bool false) ∧
      emptyNonLastPage.body.get? "values" = some (.arr []))) := by
  refine ⟨⟨?_, fun k => rfl, fun k => rfl, fun k => rfl⟩,
    by rfl, ?_, ⟨rfl, rfl, rfl⟩⟩
  · intro fuel
    rw [fetch_paginated_unfold urljoin0 conn0 c4neServer loads0 "/ep" 1 none fuel
      (by decide) (by omega)]
    exact fetch_paginated_go_diverges_of_never_last c4neServer loads0
      (urljoin0 conn0.base_url "/ep") 1 none (fun s => ⟨_, rfl⟩)
      (fun k => ⟨rfl, ⟨.bool false, rfl, rfl⟩, rfl⟩) fuel 0 0 [] []
  · intro k hk
    match k, hk with
    | k + 1, _ => rfl

/-- Claim C4, amended: a 200 page with `isLast:false` and empty `values`
leaves `startAt` (and the accumulator) unchanged, so the next request
re-asks the same offset; `fetch_paginated` never terminates on a server
that always answers 200 with `isLast:false` and empty `values`; and it
terminates (successfully) whenever the server, after finitely many
well-formed 200 pages with falsy `isLast`, answers a well-formed 200
page with truthy `isLast`. -/
theorem C4_amended :
    (∀ (server : Nat → HttpResponse) (loads : String → Except String Json)
       (url : String) (fetch_size : Int) (params_json : Option String)
       (fuel k : Nat) (start_at : Int) (data : List Json) (reqs : List Request)
       (ps : List (String × Json)),
       paginated_params loads fetch_size start_at params_json = .ok ps →
       (server k).status_code = 200 →
       (server k).body.get? "isLast" = some (.bool false) →
       (server k).body.get? "values" = some (.arr []) →
       fetch_paginated_go server loads url fetch_size params_json (fuel + 1) k start_at data reqs =
         fetch_paginated_go server loads url fetch_size params_json fuel
           (k + 1) start_at data (reqs ++ [⟨url, ps⟩])) ∧
    (∀ (urljoin : String → String → String) (conn : JiraConnection)
       (server : Nat → HttpResponse) (loads : String → Except String Json)
       (e : String) (fetch_size : Int) (params_json : Option String),
       e ≠ "" → ¬ fetch_size < 1 →
       (∀ s : Int, ∃ ps, paginated_params loads fetch_size s params_json = .ok ps) →
       (∀ k, (server k).status_code = 200 ∧
         (server k).body.get? "isLast" = some (.bool false) ∧
         (server k).body.get? "values" = some (.arr [])) →
       fetch_paginated_diverges urljoin conn server loads (some e) fetch_size params_json) ∧
    (∀ (urljoin : String → String → String) (conn : JiraConnection)
       (server : Nat → HttpResponse) (loads : String → Except String Json)
       (e : String) (fetch_size : Int) (params_json : Option String)
       (N fuel : Nat) (j : Json),
       e ≠ "" → ¬ fetch_size < 1 →
       (∀ s : Int, ∃ ps, paginated_params loads fetch_size s params_json = .ok ps) →
       (∀ i, i < N → contPage server i) →
       (server N).status_code = 200 →
       (server N).body.get? "isLast" = some j → j.truthy = true →
       (server N).body.get? "values" = some (.arr (pageValues server N)) →
       ∃ res reqs,
         fetch_paginated urljoin conn server loads (some e) fetch_size params_json (fuel + (N + 1)) =
           some (.ok res, reqs)) := by
  refine ⟨?_, ?_, ?_⟩
  · intro server loads url fetch_size params_json fuel k start_at data reqs ps
      hps hst hlast hvals
    have hstep := fetch_paginated_go_step server loads url fetch_size params_json
      fuel k start_at data reqs ps (.bool false) [] hps hst hlast hvals
    simpa using hstep
  · intro urljoin conn server loads e fetch_size params_json he hfs hpp hbad fuel
    rw [fetch_paginated_unfold urljoin conn server loads e fetch_size params_json
      fuel he hfs]
    refine fetch_paginated_go_diverges_of_never_last server loads
      (urljoin conn.base_url e) fetch_size params_json hpp ?_ fuel 0 0 [] []
    intro k
    obtain ⟨hst, hlast, hvals⟩ := hbad k
    refine ⟨hst, ⟨.bool false, hlast, rfl⟩, ?_⟩
    have hpv : pageValues server k = [] := by
      simp [pageValues, hvals]
    rw [hpv]
    exact hvals
  · intro urljoin conn server loads e fetch_size params_json N fuel j he hfs hpp
      hgood hst hlast htru hvals
    rw [fetch_paginated_unfold urljoin conn server loads e fetch_size params_json
      (fuel + (N + 1)) he hfs]
    have harith : fuel + (N + 1) = (fuel + 1) + N := by omega
    rw [harith]
    have hgood0 : ∀ i, i < N → contPage server (0 + i) := by
      intro i hi
      have h0 : 0 + i = i := by omega
      rw [h0]
      exact hgood i hi
    obtain ⟨rs, hlen, hrun⟩ := fetch_paginated_go_run server loads
      (urljoin conn.base_url e) fetch_size params_json hpp N 0 hgood0
      (fuel + 1) 0 [] []
    rw [hrun]
    have h0N : 0 + N = N := by omega
    rw [h0N]
    obtain ⟨ps, hps⟩ := hpp (0 + (valuesCat server 0 N).length)
    have hstep := fetch_paginated_go_step server loads (urljoin conn.base_url e)
      fetch_size params_json fuel N (0 + (valuesCat server 0 N).length)
      ([] ++ valuesCat server 0 N) ([] ++ rs) ps j (pageValues server N)
      hps hst hlast hvals
    rw [htru] at hstep
    simp only [if_pos rfl] at hstep
    rw [hstep]
    exact ⟨_, _, rfl⟩

/-- Claim C8 as stated is false: with `fields_str` provided as the empty
string, the claim requires a `fields` parameter on every request, but
`if fields_str:` is a Python truthiness test, so the run sends requests
whose parameter dicts carry no `fields` key at all. -/
theorem C8_counterexample :
    fetch_issues urljoin0 conn0 c2server (some "/ep") 1 (some "") none 10 =
      some (.ok [.obj [("id", .num 1)], .obj [("id", .num 2)]],
        [⟨"https://jira.example/ep", [("startAt", .num 0), ("maxResults", .num 1)]⟩,
         ⟨"https://jira.example/ep", [("startAt", .num 1), ("maxResults", .num 1)]⟩]) ∧
    dictGet? [("startAt", .num 0), ("maxResults", .num 1)] "fields" = none := by
  exact ⟨rfl, rfl⟩

/-- Claim C8, amended: every `fetch_issues` request carries parameters
built by `_get_params` at some offset, which always contain `startAt`
and `maxResults = fetch_size`, contain `jql` exactly when a jql was
provided, and contain `fields` exactly when a NON-EMPTY `fields_str` was
provided — in which case `fields` is `fields_str` split on `","`. -/
theorem C8_amended :
    (∀ (fetch_size : Int) (fields : Option (List String)) (jql : Option String)
       (s : Int),
       dictGet? (_get_params fetch_size fields jql s) "startAt" = some (.num s) ∧
       dictGet? (_get_params fetch_size fields jql s) "maxResults" = some (.num fetch_size) ∧
       dictGet? (_get_params fetch_size fields jql s) "jql" = Option.map Json.str jql ∧
       dictGet? (_get_params fetch_size fields jql s) "fields" =
         Option.map (fun fs => Json.arr (fs.map Json.str)) fields) ∧
    (∀ s : String, s ≠ "" → issueFields (some s) = some (splitComma s)) ∧
    issueFields (some "") = none ∧
    issueFields none = none ∧
    (∀ (urljoin : String → String → String) (conn : JiraConnection)
       (server : Nat → HttpResponse) (e : String) (fetch_size : Int)
       (fields_str jql : Option String) (fuel : Nat)
       (res : Except PyError (List Json)) (reqs : List Request),
       e ≠ "" → ¬ fetch_size < 1 →
       fetch_issues urljoin conn server (some e) fetch_size fields_str jql fuel =
         some (res, reqs) →
       ∀ req ∈ reqs, req.url = urljoin conn.base_url e ∧
         ∃ s', req.params = _get_params fetch_size (issueFields fields_str) jql s') ∧
    fetch_issues urljoin0 conn0 c2server (some "/ep") 1 (some "a,b") (some "q") 10 =
      some (.ok [.obj [("id", .num 1)], .obj [("id", .num 2)]],
        [⟨"https://jira.example/ep",
          [("startAt", .num 0), ("maxResults", .num 1), ("jql", .str "q"),
           ("fields", .arr [.str "a", .str "b"])]⟩,
         ⟨"https://jira.example/ep",
          [("startAt", .num 1), ("maxResults", .num 1), ("jql", .str "q"),
           ("fields", .arr [.str "a", .str "b"])]⟩]) := by
  refine ⟨?_, ?_, rfl, rfl, ?_, by rfl⟩
  · intro fetch_size fields jql s
    cases jql <;> cases fields <;>
      simp [_get_params, dictGet?, List.find?]
  · intro s hs
    simp [issueFields, hs]
  · intro urljoin conn server e fetch_size fields_str jql fuel res reqs he hfs h
    rw [fetch_issues_unfold urljoin conn server e fetch_size fields_str jql fuel
      he hfs] at h
    intro req hreq
    rcases fetch_issues_go_reqs_params server (urljoin conn.base_url e)
      fetch_size (issueFields fields_str) jql fuel 0 0 fetch_size [] []
      res reqs h req hreq with hin | hshape
    · simp at hin
    · exact hshape

theorem c10server_go_none :
    ∀ (fuel k : Nat) (d : List Json) (r : List Request),
    fetch_issues_go c10server (urljoin0 conn0.base_url "/ep") 1 none none
      fuel k (k : Int) ((k : Int) + 1) d r = none := by
  intro fuel
  induction fuel with
  | zero => intro k d r; rfl
  | succ fuel ih =>
    intro k d r
    have hlt : (k : Int) < (k : Int) + 1 := by omega
    have hst : (c10server k).status_code = 200 := rfl
    have htot : (c10server k).body.get? "total" = some (.num ((k : Int) + 2)) := rfl
    have hiss : (c10server k).body.get? "issues" = some (.arr [.obj [("id", .num 1)]]) := rfl
    have hstep := fetch_issues_go_step c10server (urljoin0 conn0.base_url "/ep")
      1 none none fuel k (k : Int) ((k : Int) + 1) d r ((k : Int) + 2)
      [.obj [("id", .num 1)]] hlt hst htot hiss
    rw [hstep]
    have hrec := ih (k + 1) (d ++ [.obj [("id", .num 1)]])
      (r ++ [⟨urljoin0 conn0.base_url "/ep", _get_params 1 none none (k : Int)⟩])
    have e1 : ((k + 1 : Nat) : Int) = (k : Int) + 1 := by push_cast; ring
    rw [e1] at hrec
    simpa [add_assoc] using hrec

/-- Claim C10 as stated is false: `c10server` answers every request with
a non-empty `issues` list (one issue), so by the claim's termination
clause `fetch_issues` should terminate on it; but each response also
reports `total = k + 2` at the k-th request, keeping `total` ahead of
the advancing offset, and the loop never exits. -/
theorem C10_counterexample :
    fetch_issues_diverges urljoin0 conn0 c10server (some "/ep") 1 none none ∧
    (∀ k, (c10server k).status_code = 200) ∧
    (∀ k, (c10server k).body.get? "issues" = some (.arr [.obj [("id", .num 1)]])) := by
  refine ⟨?_, fun k => rfl, fun k => rfl⟩
  intro fuel
  rw [fetch_issues_unfold urljoin0 conn0 c10server "/ep" 1 none none fuel
    (by decide) (by omega)]
  have h := c10server_go_none fuel 0 [] []
  simpa using h

/-- Claim C10, amended: a 200 response with empty `issues` while
`startAt < totalItems` leaves `startAt` (and the accumulator) unchanged,
so the same offset is requested again; `fetch_issues` never terminates
on a server that always answers 200 with empty `issues` and a positive
`total`; and it terminates whenever every response reports
`total ≤ startAt + length(issues)` — in particular when the first
response does, after exactly one request. -/
theorem C10_amended :
    (∀ (server : Nat → HttpResponse) (url : String) (fetch_size : Int)
       (fields : Option (List String)) (jql : Option String) (fuel k : Nat)
       (start_at total_items total : Int) (data : List Json) (reqs : List Request),
       start_at < total_items →
       (server k).status_code = 200 →
       (server k).body.get? "total" = some (.num total) →
       (server k).body.get? "issues" = some (.arr []) →
       fetch_issues_go server url fetch_size fields jql (fuel + 1) k start_at total_items data reqs =
         fetch_issues_go server url fetch_size fields jql fuel (k + 1)
           start_at total data
           (reqs ++ [⟨url, _get_params fetch_size fields jql start_at⟩])) ∧
    (∀ (urljoin : String → String → String) (conn : JiraConnection)
       (server : Nat → HttpResponse) (e : String) (fetch_size : Int)
       (fields_str jql : Option String),
       e ≠ "" → 1 ≤ fetch_size →
       (∀ k, (server k).status_code = 200 ∧
         (server k).body.get? "total" = some (.num (pageTotal server k)) ∧
         (server k).body.get? "issues" = some (.arr []) ∧
         0 < pageTotal server k) →
       fetch_issues_diverges urljoin conn server (some e) fetch_size fields_str jql) ∧
    (∀ (urljoin : String → String → String) (conn : JiraConnection)
       (server : Nat → HttpResponse) (e : String) (fetch_size : Int)
       (fields_str jql : Option String) (fuel : Nat) (t0 : Int) (v0 : List Json),
       e ≠ "" → 1 ≤ fetch_size →
       (server 0).status_code = 200 →
       (server 0).body.get? "total" = some (.num t0) →
       (server 0).body.get? "issues" = some (.arr v0) →
       t0 ≤ v0.length →
       fetch_issues urljoin conn server (some e) fetch_size fields_str jql (fuel + 2) =
         some (.ok v0,
           [⟨urljoin conn.base_url e,
             _get_params fetch_size (issueFields fields_str) jql 0⟩])) := by
  refine ⟨?_, ?_, ?_⟩
  · intro server url fetch_size fields jql fuel k start_at total_items total data
      reqs hlt hst htot hiss
    have hstep := fetch_issues_go_step server url fetch_size fields jql fuel k
      start_at total_items data reqs total [] hlt hst htot hiss
    simpa using hstep
  · intro urljoin conn server e fetch_size fields_str jql he hfs hbad fuel
    rw [fetch_issues_unfold urljoin conn server e fetch_size fields_str jql fuel
      he (by omega)]
    refine fetch_issues_go_diverges_of_empty server (urljoin conn.base_url e)
      fetch_size (issueFields fields_str) jql ?_ fuel 0 fetch_size (by omega) [] []
    intro k
    obtain ⟨hst, htot, hiss, hpos⟩ := hbad k
    have hpi : pageIssues server k = [] := by
      simp [pageIssues, hiss]
    exact ⟨⟨hst, htot, by rw [hpi]; exact hiss⟩, hpi, hpos⟩
  · intro urljoin conn server e fetch_size fields_str jql fuel t0 v0 he hfs hst
      htot hiss hle
    rw [fetch_issues_unfold urljoin conn server e fetch_size fields_str jql
      (fuel + 2) he (by omega)]
    have hstep := fetch_issues_go_step server (urljoin conn.base_url e)
      fetch_size (issueFields fields_str) jql (fuel + 1) 0 0 fetch_size [] []
      t0 v0 (by omega) hst htot hiss
    rw [hstep]
    have hstop : ¬ ((0 : Int) + v0.length < t0) := by
      omega
    simp only [fetch_issues_go, if_neg hstop]
    simp
